import Mathlib

/-!
Shallow embedding of the cuVSLAM Rust binding layer
(`src/lib.rs`) and its tracking-loop driver (`src/bin/realsense.rs`).

The native engine is opaque: every wrapper that crosses the native
boundary is parameterised by the values the native call would produce
(its status code and its out-parameters), and returns, next to its
result, the list of native calls it issued, so that "the native call is
(not) reached" becomes a provable statement.  Rust panics (`unwrap` on a
failing `CString::new`) are modelled as `Option.none`; Rust `Drop`
semantics are modelled as a single release event emitted when the owning
scope ends.  `f32`/`f64` fields are carried as `Float`; no claim performs
floating-point arithmetic, only structural copies.
-/

namespace Cuvslam

/-- Two's-complement reinterpretation of a Rust `usize` value as `i32`,
modelling the `as i32` cast in `CameraRig::new`. -/
def usizeToI32 (n : Nat) : Int :=
  if n % 4294967296 < 2147483648 then ((n % 4294967296 : Nat) : Int)
  else ((n % 4294967296 : Nat) : Int) - 4294967296

/-- `CUVSLAM_Pose`: a 3x3 rotation (9 entries) and a 3-vector translation. -/
structure CUVSLAM_Pose where
  r : Fin 9 → Float
  t : Fin 3 → Float

/-- `CUVSLAM_PoseEstimate`: pose, nanosecond timestamp, 6x6 covariance. -/
structure CUVSLAM_PoseEstimate where
  pose : CUVSLAM_Pose
  timestamp_ns : Int
  covariance : Fin 36 → Float

/-- `CUVSLAM_Camera`: the native-shaped camera descriptor.  The
`distortion_model` C-string pointer and the `parameters` buffer pointer
are modelled by the data they point at. -/
structure CUVSLAM_Camera where
  width : Int
  height : Int
  distortion_model : String
  parameters : List Float
  num_parameters : Int
  border_top : Int
  border_bottom : Int
  border_left : Int
  border_right : Int
  pose : CUVSLAM_Pose

/-- `CUVSLAM_CameraRig`: pointer to a camera array plus its length. -/
structure CUVSLAM_CameraRig where
  cameras : List CUVSLAM_Camera
  num_cameras : Int

/-- Modelled from the spec: `CUVSLAM_Configuration` is produced by the
external `CUVSLAM_GetDefaultConfiguration` and passed through opaquely;
its contents never influence the binding layer, so it is a black box. -/
structure CUVSLAM_Configuration where
  blob : Nat

/-- `CUVSLAM_Image`: image descriptor handed to the native `Track` call.
The pixel pointer is modelled as an opaque address. -/
structure CUVSLAM_Image where
  width : Int
  height : Int
  pitch : Int
  pixels : Nat
  camera_index : Int
  timestamp_ns : Int
  image_encoding : Int

/-- `Brown5kParameters` (9 parameters). -/
structure Brown5kParameters where
  cx : Float
  cy : Float
  fx : Float
  fy : Float
  k1 : Float
  k2 : Float
  k3 : Float
  p1 : Float
  p2 : Float

/-- `PinholeParameters` (4 parameters). -/
structure PinholeParameters where
  cx : Float
  cy : Float
  fx : Float
  fy : Float

/-- `Fisheye4Parameters` (8 parameters). -/
structure Fisheye4Parameters where
  cx : Float
  cy : Float
  fx : Float
  fy : Float
  k1 : Float
  k2 : Float
  k3 : Float
  k4 : Float

/-- `Camera`: owns its parameter vector and distortion-model string,
plus the native-shaped mirror `inner`. -/
structure Camera where
  parameters : List Float
  distortion_model : String
  inner : CUVSLAM_Camera

/-- `Camera::new_brown5k`. -/
def Camera.new_brown5k (width height : Int) (params : Brown5kParameters)
    (pose : CUVSLAM_Pose) : Camera :=
  let parameters : List Float :=
    [params.cx, params.cy, params.fx, params.fy,
     params.k1, params.k2, params.k3, params.p1, params.p2]
  let distortion_model := "brown5k"
  { parameters := parameters
    distortion_model := distortion_model
    inner :=
      { width := width
        height := height
        distortion_model := distortion_model
        parameters := parameters
        num_parameters := 9
        border_top := 0
        border_bottom := 0
        border_left := 0
        border_right := 0
        pose := pose } }

/-- `Camera::new_pinhole`. -/
def Camera.new_pinhole (width height : Int) (params : PinholeParameters)
    (pose : CUVSLAM_Pose) : Camera :=
  let parameters : List Float := [params.cx, params.cy, params.fx, params.fy]
  let distortion_model := "pinhole"
  { parameters := parameters
    distortion_model := distortion_model
    inner :=
      { width := width
        height := height
        distortion_model := distortion_model
        parameters := parameters
        num_parameters := 4
        border_top := 0
        border_bottom := 0
        border_left := 0
        border_right := 0
        pose := pose } }

/-- `Camera::new_fisheye4`. -/
def Camera.new_fisheye4 (width height : Int) (params : Fisheye4Parameters)
    (pose : CUVSLAM_Pose) : Camera :=
  let parameters : List Float :=
    [params.cx, params.cy, params.fx, params.fy,
     params.k1, params.k2, params.k3, params.k4]
  let distortion_model := "fisheye4"
  { parameters := parameters
    distortion_model := distortion_model
    inner :=
      { width := width
        height := height
        distortion_model := distortion_model
        parameters := parameters
        num_parameters := 8
        border_top := 0
        border_bottom := 0
        border_left := 0
        border_right := 0
        pose := pose } }

/-- `CameraRig`: owns the cameras and a cloned native-shaped array. -/
structure CameraRig where
  _inner_cameras : List CUVSLAM_Camera
  _cameras : List Camera
  inner : CUVSLAM_CameraRig

/-- `CameraRig::new`: total, pure local data preparation; clones each
camera's native mirror and records the count as an `i32` cast.  No
failure path and no native call exist in the source. -/
def CameraRig.new (cameras : List Camera) : CameraRig :=
  let _inner_cameras := cameras.map (fun c => c.inner)
  { _inner_cameras := _inner_cameras
    _cameras := cameras
    inner :=
      { cameras := _inner_cameras
        num_cameras := usizeToI32 cameras.length } }

/-- `Status`: the closed error taxonomy of the binding layer. -/
inductive Status where
  | Success
  | TrackingLost
  | InvalidArg
  | CannotLocalize
  | GenericError
  | UnsupportedNumberOfCameras
  | SlamNotInitialized
  | NotImplemented
  | ReadingSlamInternalsDisabled
deriving DecidableEq, Repr

/-- Modelled from the spec: the native status constants live in the
external bindgen crate `cuvslam_lib::bindings`, not under `src/`.  Their
values follow the cuVSLAM ABI order of the spec's Status enumeration,
with `CUVSLAM_SUCCESS = 0` pinned by the `status == 0` success checks in
`Tracker`. -/
def CUVSLAM_SUCCESS : Int := 0

/-- Modelled from the spec: native code for tracking lost. -/
def CUVSLAM_TRACKING_LOST : Int := 1

/-- Modelled from the spec: native code for invalid argument. -/
def CUVSLAM_INVALID_ARG : Int := 2

/-- Modelled from the spec: native code for cannot localize. -/
def CUVSLAM_CAN_NOT_LOCALIZE : Int := 3

/-- Modelled from the spec: native code for generic error. -/
def CUVSLAM_GENERIC_ERROR : Int := 4

/-- Modelled from the spec: native code for unsupported number of cameras. -/
def CUVSLAM_UNSUPPORTED_NUMBER_OF_CAMERAS : Int := 5

/-- Modelled from the spec: native code for SLAM not initialized. -/
def CUVSLAM_SLAM_IS_NOT_INITIALIZED : Int := 6

/-- Modelled from the spec: native code for not implemented. -/
def CUVSLAM_NOT_IMPLEMENTED : Int := 7

/-- Modelled from the spec: native code for reading SLAM internals disabled. -/
def CUVSLAM_READING_SLAM_INTERNALS_DISABLED : Int := 8

/-- `impl From<CUVSLAM_Status> for Status`: the match over the nine known
native codes with the wildcard arm folding to `GenericError`. -/
def Status.ofNative (status : Int) : Status :=
  if status = CUVSLAM_SUCCESS then .Success
  else if status = CUVSLAM_TRACKING_LOST then .TrackingLost
  else if status = CUVSLAM_INVALID_ARG then .InvalidArg
  else if status = CUVSLAM_CAN_NOT_LOCALIZE then .CannotLocalize
  else if status = CUVSLAM_GENERIC_ERROR then .GenericError
  else if status = CUVSLAM_UNSUPPORTED_NUMBER_OF_CAMERAS then .UnsupportedNumberOfCameras
  else if status = CUVSLAM_SLAM_IS_NOT_INITIALIZED then .SlamNotInitialized
  else if status = CUVSLAM_NOT_IMPLEMENTED then .NotImplemented
  else if status = CUVSLAM_READING_SLAM_INTERNALS_DISABLED then .ReadingSlamInternalsDisabled
  else .GenericError

/-- `PoseEstimate`: the public pose-estimate value. -/
structure PoseEstimate where
  pose : CUVSLAM_Pose
  timestamp_ns : Int
  covariance : Fin 36 → Float

/-- `impl From<PoseEstimate> for CUVSLAM_PoseEstimate`: field-wise copy. -/
def PoseEstimate.toNative (est : PoseEstimate) : CUVSLAM_PoseEstimate :=
  { pose := est.pose
    timestamp_ns := est.timestamp_ns
    covariance := est.covariance }

/-- `impl From<CUVSLAM_PoseEstimate> for PoseEstimate`: field-wise copy. -/
def PoseEstimate.ofNative (est : CUVSLAM_PoseEstimate) : PoseEstimate :=
  { pose := est.pose
    timestamp_ns := est.timestamp_ns
    covariance := est.covariance }

/-- `ImageEncoding`: the public encoding enum. -/
inductive ImageEncoding where
  | Mono8
  | Rgb8
deriving DecidableEq, Repr

/-- Modelled from the spec: the native encoding constants live in the
external bindgen crate; MONO8 and RGB8 are the two known codes. -/
def CUVSLAM_ImageEncoding_MONO8 : Int := 0

/-- Modelled from the spec: native code for 8-bit RGB images. -/
def CUVSLAM_ImageEncoding_RGB8 : Int := 1

/-- `impl From<CUVSLAM_ImageEncoding> for ImageEncoding`: the two known
codes map to their variants; the wildcard arm is
`panic!("Unknown image encoding")`, modelled as `none`. -/
def ImageEncoding.ofNative (encoding : Int) : Option ImageEncoding :=
  if encoding = CUVSLAM_ImageEncoding_MONO8 then some .Mono8
  else if encoding = CUVSLAM_ImageEncoding_RGB8 then some .Rgb8
  else none

/-- `Tracker`: owns the opaque native handle and keeps the rig alive. -/
structure Tracker where
  handle : Nat
  _rig : CameraRig

/-- `Tracker::new`: issues the native `CUVSLAM_CreateTracker` call
(whose resulting status and handle are supplied by the oracle arguments
`nativeStatus`, `nativeHandle`), then checks `status == 0`. -/
def Tracker.new (nativeStatus : Int) (nativeHandle : Nat) (rig : CameraRig)
    (_config : CUVSLAM_Configuration) : Except Status Tracker :=
  if nativeStatus = 0 then .ok { handle := nativeHandle, _rig := rig }
  else .error (Status.ofNative nativeStatus)

/-- Record of one native `CUVSLAM_Track` invocation: the handle and the
image count (`images.len()`) passed through. -/
structure NativeTrackCall where
  handle : Nat
  imageCount : Nat
deriving DecidableEq, Repr

/-- `Tracker::track`: unconditionally issues the native `CUVSLAM_Track`
call, passing `images.as_ptr()` and `images.len()` verbatim — there is
no count validation in the source; then checks `status == 0`.  The
native call's status and out-parameter estimate are supplied by the
oracle arguments; the returned list records the native calls issued. -/
def Tracker.track (nativeStatus : Int) (nativeEstimate : CUVSLAM_PoseEstimate)
    (t : Tracker) (images : List CUVSLAM_Image)
    (_predicted_pose : Option PoseEstimate) :
    Except Status PoseEstimate × List NativeTrackCall :=
  let call : NativeTrackCall := { handle := t.handle, imageCount := images.length }
  if nativeStatus = 0 then
    (.ok (PoseEstimate.ofNative nativeEstimate), [call])
  else
    (.error (Status.ofNative nativeStatus), [call])

/-- `Tracker::get_odometry_pose`: issues the native call (status and
out-parameter pose supplied by the oracle arguments), then checks
`status == 0`. -/
def Tracker.get_odometry_pose (nativeStatus : Int) (nativePose : CUVSLAM_Pose)
    (_t : Tracker) : Except Status CUVSLAM_Pose :=
  if nativeStatus = 0 then .ok nativePose
  else .error (Status.ofNative nativeStatus)

/-- Record of one native `CUVSLAM_SaveToSlamDb` invocation: the handle
and the folder string handed to the native call (the bytes of the
`CString` built from the argument). -/
structure NativeSaveCall where
  handle : Nat
  folder : String
deriving DecidableEq, Repr

/-- True when the string contains an interior NUL byte, on which
`CString::new(folder).unwrap()` panics. -/
def hasNulByte (s : String) : Bool :=
  s.toList.contains (Char.ofNat 0)

/-- `Tracker::save_to_slam_db`: builds a `CString` from the folder
argument (`unwrap` panics on an interior NUL byte — modelled as `none`),
then issues the native call with the folder bytes passed verbatim and
checks `status == 0`. -/
def Tracker.save_to_slam_db (nativeStatus : Int) (t : Tracker)
    (folder : String) :
    Option (Except Status Unit × List NativeSaveCall) :=
  if hasNulByte folder then none
  else
    let call : NativeSaveCall := { handle := t.handle, folder := folder }
    if nativeStatus = 0 then some (.ok (), [call])
    else some (.error (Status.ofNative nativeStatus), [call])

/-- `impl Drop for Tracker` issues `CUVSLAM_DestroyTracker(self.handle)`;
in the driver model below the drop event is emitted exactly where Rust
runs the destructor: when the tracker's owning scope ends. -/
def Tracker.dropEventHandle (t : Tracker) : Nat :=
  t.handle

/-- A captured infrared frame as seen through the capture collaborator:
width/height/stride and an opaque pixel-storage address. -/
structure InfraredFrame where
  width : Nat
  height : Nat
  stride : Nat
  dataPtr : Nat
deriving DecidableEq, Repr

/-- `create_cuvslam_image` in `realsense.rs`: reads width/height/stride
and the pixel reference from the frame, stamps the wall-clock timestamp
(supplied here as an argument), sets `camera_index = 0` and
`image_encoding = 0`, and copies no pixel bytes. -/
def create_cuvslam_image (frame : InfraredFrame) (timestamp : Int) :
    CUVSLAM_Image :=
  { width := (frame.width : Int)
    height := (frame.height : Int)
    pitch := (frame.stride : Int)
    pixels := frame.dataPtr
    camera_index := 0
    timestamp_ns := timestamp
    image_encoding := 0 }

/-- The two images one loop iteration builds: the first two delivered
frames marshalled, then `camera_index` overwritten to 0 and 1. -/
def loopImages (f0 f1 : InfraredFrame) (timestamp : Int) :
    List CUVSLAM_Image :=
  [{ create_cuvslam_image f0 timestamp with camera_index := 0 },
   { create_cuvslam_image f1 timestamp with camera_index := 1 }]

/-- What the loop does after a `track` call returns. -/
inductive LoopDecision where
  | continueLoop
  | breakLoop
deriving DecidableEq, Repr

/-- The `match tracker.track(..)` arms of the main loop in
`realsense.rs`: `Ok` logs and continues, `Err(Status::TrackingLost)`
prints and continues, any other `Err` prints and breaks. -/
def handleTrackResult : Except Status PoseEstimate → LoopDecision
  | .ok _ => .continueLoop
  | .error .TrackingLost => .continueLoop
  | .error _ => .breakLoop

/-- One observable native-boundary event of the driver. -/
inductive NativeEvent where
  | createCall (status : Int)
  | trackCall (handle : Nat) (imageCount : Nat)
  | destroyCall (handle : Nat)
deriving DecidableEq, Repr

/-- True exactly on destroy events. -/
def NativeEvent.isDestroy : NativeEvent → Bool
  | .destroyCall _ => true
  | _ => false

/-- External data one loop iteration consumes: the frames the capture
collaborator delivered, the wall-clock timestamp, and the status and
out-parameter the native `Track` call would produce. -/
structure LoopIterationInput where
  frames : List InfraredFrame
  timestamp : Int
  nativeStatus : Int
  nativeEstimate : CUVSLAM_PoseEstimate

/-- One iteration of the main loop of `realsense.rs`: the native calls
it issues and the continue/break decision it reaches.  An iteration
delivering fewer than two frames prints
"Not enough color frames received!" and continues without tracking;
otherwise the first two frames are marshalled with camera indices 0 and
1, `track` is invoked, and the result is classified by
`handleTrackResult`. -/
def iterationEvents (tr : Tracker) (it : LoopIterationInput) :
    List NativeEvent × LoopDecision :=
  match it.frames with
  | f0 :: f1 :: _ =>
    let images := loopImages f0 f1 it.timestamp
    let r := Tracker.track it.nativeStatus it.nativeEstimate tr images none
    (r.2.map (fun c => NativeEvent.trackCall c.handle c.imageCount),
     handleTrackResult r.1)
  | _ => ([], .continueLoop)

/-- Folding the iterations into the native-event trace, stopping when an
iteration's decision is `breakLoop`. -/
def runLoop (tr : Tracker) : List LoopIterationInput → List NativeEvent
  | [] => []
  | it :: rest =>
    match iterationEvents tr it with
    | (evts, .continueLoop) => evts ++ runLoop tr rest
    | (evts, .breakLoop) => evts

/-- `main` of `realsense.rs` from tracker creation on: create the
tracker (on a non-success status print and return early — no tracker
value exists, so no destructor runs), otherwise drive the loop; when the
loop ends (break on a fatal status, or stream end) the tracker goes out
of scope and Rust's `Drop` runs exactly once, emitting the destroy
call. -/
def runMain (createStatus : Int) (nativeHandle : Nat) (rig : CameraRig)
    (config : CUVSLAM_Configuration) (inputs : List LoopIterationInput) :
    List NativeEvent :=
  NativeEvent.createCall createStatus ::
    match Tracker.new createStatus nativeHandle rig config with
    | .error _ => []
    | .ok tr => runLoop tr inputs ++ [NativeEvent.destroyCall tr.dropEventHandle]

/-- Modelled from the spec: `parameter_count(model)` — the parameter
count each textual distortion-model name declares (§3: pinhole 4,
brown5k 9, fisheye4 8). -/
def parameterCount : String → Option Nat
  | "pinhole" => some 4
  | "brown5k" => some 9
  | "fisheye4" => some 8
  | _ => none

/-! Concrete demonstration values, used by counterexamples and witnesses. -/

/-- Identity-rotation, zero-translation pose (the test-fixture pose). -/
def demoPose : CUVSLAM_Pose :=
  { r := fun i => if i.val = 0 ∨ i.val = 4 ∨ i.val = 8 then 1.0 else 0.0
    t := fun _ => 0.0 }

/-- A concrete pinhole camera (the realsense calibration numbers). -/
def demoCamera : Camera :=
  Camera.new_pinhole 640 480
    { cx := 320.0, cy := 240.0, fx := 385.0, fy := 385.0 } demoPose

/-- A concrete two-camera stereo rig. -/
def demoRig : CameraRig :=
  CameraRig.new [demoCamera, demoCamera]

/-- A concrete tracker session over the stereo rig. -/
def demoTracker : Tracker :=
  { handle := 7, _rig := demoRig }

/-- A concrete image descriptor. -/
def demoImage : CUVSLAM_Image :=
  { width := 640, height := 480, pitch := 640, pixels := 0
    camera_index := 0, timestamp_ns := 0, image_encoding := 0 }

/-- All-zero native pose. -/
def zeroPose : CUVSLAM_Pose :=
  { r := fun _ => 0.0, t := fun _ => 0.0 }

/-- All-zero native pose estimate (the out-parameter initial value). -/
def zeroEstimate : CUVSLAM_PoseEstimate :=
  { pose := zeroPose, timestamp_ns := 0, covariance := fun _ => 0.0 }

/-- A concrete captured frame. -/
def demoFrame : InfraredFrame :=
  { width := 640, height := 480, stride := 640, dataPtr := 0 }

/-- A loop iteration whose native track call reports tracking lost. -/
def lostInput : LoopIterationInput :=
  { frames := [demoFrame, demoFrame], timestamp := 0
    nativeStatus := CUVSLAM_TRACKING_LOST, nativeEstimate := zeroEstimate }

/-- A loop iteration whose native track call reports an invalid
argument (a fatal status). -/
def fatalInput : LoopIterationInput :=
  { frames := [demoFrame, demoFrame], timestamp := 0
    nativeStatus := CUVSLAM_INVALID_ARG, nativeEstimate := zeroEstimate }

/-! Helper lemmas shared by the claim theorems. -/

/-- The binding layer's `status == 0` success check agrees with the
taxonomy: a native code maps to `Success` exactly when it is zero. -/
theorem Status.ofNative_eq_success_iff (s : Int) :
    Status.ofNative s = Status.Success ↔ s = 0 := by
  unfold Status.ofNative CUVSLAM_SUCCESS CUVSLAM_TRACKING_LOST
    CUVSLAM_INVALID_ARG CUVSLAM_CAN_NOT_LOCALIZE CUVSLAM_GENERIC_ERROR
    CUVSLAM_UNSUPPORTED_NUMBER_OF_CAMERAS CUVSLAM_SLAM_IS_NOT_INITIALIZED
    CUVSLAM_NOT_IMPLEMENTED CUVSLAM_READING_SLAM_INTERNALS_DISABLED
  split_ifs <;> simp_all

/-- The second component of `Tracker.track` is always the single native
call record carrying `images.len()`. -/
theorem Tracker.track_calls (s : Int) (est : CUVSLAM_PoseEstimate)
    (t : Tracker) (images : List CUVSLAM_Image) (pp : Option PoseEstimate) :
    (Tracker.track s est t images pp).2 =
      [{ handle := t.handle, imageCount := images.length }] := by
  unfold Tracker.track
  split <;> rfl

/-- A loop iteration issues either no native call (fewer than two
frames) or exactly one track call with image count 2. -/
theorem iterationEvents_fst (tr : Tracker) (it : LoopIterationInput) :
    (iterationEvents tr it).1 = [] ∨
    (iterationEvents tr it).1 = [NativeEvent.trackCall tr.handle 2] := by
  unfold iterationEvents
  rcases it.frames with _ | ⟨f0, _ | ⟨f1, tail⟩⟩
  · exact Or.inl rfl
  · exact Or.inl rfl
  · right
    simp [Tracker.track_calls, loopImages]

/-- No destroy event ever appears inside the loop trace. -/
theorem runLoop_no_destroy (tr : Tracker) (inputs : List LoopIterationInput) :
    ∀ e ∈ runLoop tr inputs, e.isDestroy = false := by
  induction inputs with
  | nil => intro e he; simp [runLoop] at he
  | cons it rest ih =>
    intro e he
    rw [runLoop] at he
    rcases hit : iterationEvents tr it with ⟨evts, d⟩
    have hevts : ∀ x ∈ evts, NativeEvent.isDestroy x = false := by
      intro x hx
      rcases iterationEvents_fst tr it with h1 | h1 <;>
        rw [hit] at h1 <;> simp at h1 <;> subst h1 <;> simp_all [NativeEvent.isDestroy]
    rw [hit] at he
    cases d with
    | continueLoop =>
      simp only [List.mem_append] at he
      rcases he with he | he
      · exact hevts e he
      · exact ih e he
    | breakLoop => exact hevts e he

/-- Every track call recorded by the loop carries image count 2. -/
theorem runLoop_trackCall_two (tr : Tracker) (inputs : List LoopIterationInput) :
    ∀ h n, NativeEvent.trackCall h n ∈ runLoop tr inputs → n = 2 := by
  induction inputs with
  | nil => intro h n hmem; simp [runLoop] at hmem
  | cons it rest ih =>
    intro h n hmem
    rw [runLoop] at hmem
    rcases hit : iterationEvents tr it with ⟨evts, d⟩
    have hevts : NativeEvent.trackCall h n ∈ evts → n = 2 := by
      intro hx
      rcases iterationEvents_fst tr it with h1 | h1 <;> rw [hit] at h1 <;>
        simp at h1 <;> subst h1 <;> simp_all
    rw [hit] at hmem
    cases d with
    | continueLoop =>
      simp only [List.mem_append] at hmem
      rcases hmem with hmem | hmem
      · exact hevts hmem
      · exact ih h n hmem
    | breakLoop => exact hevts hmem

/-- The loop trace contains zero destroy events. -/
theorem runLoop_countP_destroy (tr : Tracker)
    (inputs : List LoopIterationInput) :
    (runLoop tr inputs).countP NativeEvent.isDestroy = 0 := by
  rw [List.countP_eq_zero]
  intro e he
  simp [runLoop_no_destroy tr inputs e he]

/-- The first component of `Tracker.track`: success unwraps the native
out-parameter, anything else becomes the mapped status error. -/
theorem Tracker.track_fst (s : Int) (est : CUVSLAM_PoseEstimate)
    (t : Tracker) (images : List CUVSLAM_Image) (pp : Option PoseEstimate) :
    (Tracker.track s est t images pp).1 =
      if s = 0 then .ok (PoseEstimate.ofNative est)
      else .error (Status.ofNative s) := by
  unfold Tracker.track
  split <;> rfl

/-- An error on any status other than `TrackingLost` breaks the loop. -/
theorem handleTrackResult_error_fatal (s : Status) (h : s ≠ .TrackingLost) :
    handleTrackResult (.error s) = .breakLoop := by
  cases s <;> simp_all [handleTrackResult]

/-- The only error the loop continues on is `TrackingLost`. -/
theorem handleTrackResult_continue_error (s : Status) :
    handleTrackResult (.error s) = .continueLoop → s = .TrackingLost := by
  cases s <;> simp [handleTrackResult]

/-- An iteration with at least two delivered frames marshals the first
two and classifies the track call's result. -/
theorem iterationEvents_of_frames (tr : Tracker) (it : LoopIterationInput)
    (f0 f1 : InfraredFrame) (tail : List InfraredFrame)
    (hframes : it.frames = f0 :: f1 :: tail) :
    iterationEvents tr it =
      ((Tracker.track it.nativeStatus it.nativeEstimate tr
          (loopImages f0 f1 it.timestamp) none).2.map
         (fun c => NativeEvent.trackCall c.handle c.imageCount),
       handleTrackResult
         (Tracker.track it.nativeStatus it.nativeEstimate tr
           (loopImages f0 f1 it.timestamp) none).1) := by
  unfold iterationEvents
  rw [hframes]

/-! Claim theorems. -/

/-- C1 counterexample: building a rig from the empty descriptor
sequence does NOT fail — `CameraRig::new` returns `Self`, not a
`Result`, and for `[]` it produces a rig value whose native camera
count is 0 and whose camera array is empty, refuting "always fails with
a construction error". -/
theorem rig_new_empty_produces_rig :
    (CameraRig.new []).inner.num_cameras = 0 ∧
    (CameraRig.new []).inner.cameras = [] ∧
    (CameraRig.new [])._cameras = [] :=
  ⟨by decide, rfl, rfl⟩

/-- C1 (amended): `CameraRig::new` is total: for every descriptor
sequence, including the empty one, it returns a rig — no construction
error exists and no native call occurs (the definition is pure data
preparation) — whose native camera count equals the input length and
whose native camera array mirrors the input order. -/
theorem rig_new_total_no_failure (cameras : List Camera)
    (h : cameras.length < 2147483648) :
    (CameraRig.new cameras).inner.num_cameras = (cameras.length : Int) ∧
    (CameraRig.new cameras).inner.cameras = cameras.map (fun c => c.inner) ∧
    (CameraRig.new cameras)._cameras = cameras := by
  refine ⟨?_, rfl, rfl⟩
  show usizeToI32 cameras.length = (cameras.length : Int)
  unfold usizeToI32
  rw [Nat.mod_eq_of_lt (h.trans (by norm_num)), if_pos h]

/-- Witness for the C1 amended theorem at a concrete one-camera list. -/
theorem rig_new_total_no_failure_witness :
    ([demoCamera].length < 2147483648) ∧
    ((CameraRig.new [demoCamera]).inner.num_cameras =
        (([demoCamera].length : Nat) : Int) ∧
     (CameraRig.new [demoCamera]).inner.cameras =
        [demoCamera].map (fun c => c.inner) ∧
     (CameraRig.new [demoCamera])._cameras = [demoCamera]) :=
  ⟨by decide, rig_new_total_no_failure [demoCamera] (by decide)⟩

/-- C2 counterexample: `Tracker::track` performs no count validation —
on a session over a two-camera rig, a call with three images still
issues exactly one native `Track` call, with image count 3 passed
through, refuting "the native Track function is never invoked". -/
theorem track_mismatched_count_still_calls_native :
    demoTracker._rig.inner.num_cameras = 2 ∧
    (Tracker.track 0 zeroEstimate demoTracker
        [demoImage, demoImage, demoImage] none).2 =
      [{ handle := 7, imageCount := 3 }] :=
  ⟨by decide, by rw [Tracker.track_calls]; rfl⟩

/-- C2 (amended): the binding layer never rejects a mismatched count —
`Tracker::track` always issues exactly one native `Track` call carrying
`images.len()` verbatim; the loop driver, however, skips iterations
delivering fewer than two frames and otherwise marshals exactly two
images, so every native track call recorded in the loop's trace carries
image count 2, the rig's camera count. -/
theorem track_no_validation_loop_always_two
    (s : Int) (est : CUVSLAM_PoseEstimate) (tr : Tracker)
    (images : List CUVSLAM_Image) (pp : Option PoseEstimate)
    (inputs : List LoopIterationInput) :
    (Tracker.track s est tr images pp).2 =
      [{ handle := tr.handle, imageCount := images.length }] ∧
    (∀ h n, NativeEvent.trackCall h n ∈ runLoop tr inputs → n = 2) :=
  ⟨Tracker.track_calls s est tr images pp, runLoop_trackCall_two tr inputs⟩

/-- Witness for the C2 amended theorem on a concrete loop trace. -/
theorem track_no_validation_loop_always_two_witness :
    NativeEvent.trackCall 7 2 ∈ runLoop demoTracker [lostInput] ∧
    (2 : Nat) = 2 :=
  ⟨by decide,
   (track_no_validation_loop_always_two 0 zeroEstimate demoTracker [] none
      [lostInput]).2 7 2 (by decide)⟩

/-- C4: the status mapping is total (it is a function defined on every
native integer code, hence deterministic), the nine known codes map to
their corresponding variants, and every other code folds to
`GenericError`. -/
theorem status_mapping_total :
    (∀ c : Int, c ≠ CUVSLAM_SUCCESS → c ≠ CUVSLAM_TRACKING_LOST →
      c ≠ CUVSLAM_INVALID_ARG → c ≠ CUVSLAM_CAN_NOT_LOCALIZE →
      c ≠ CUVSLAM_GENERIC_ERROR → c ≠ CUVSLAM_UNSUPPORTED_NUMBER_OF_CAMERAS →
      c ≠ CUVSLAM_SLAM_IS_NOT_INITIALIZED → c ≠ CUVSLAM_NOT_IMPLEMENTED →
      c ≠ CUVSLAM_READING_SLAM_INTERNALS_DISABLED →
      Status.ofNative c = .GenericError) ∧
    Status.ofNative CUVSLAM_SUCCESS = .Success ∧
    Status.ofNative CUVSLAM_TRACKING_LOST = .TrackingLost ∧
    Status.ofNative CUVSLAM_INVALID_ARG = .InvalidArg ∧
    Status.ofNative CUVSLAM_CAN_NOT_LOCALIZE = .CannotLocalize ∧
    Status.ofNative CUVSLAM_GENERIC_ERROR = .GenericError ∧
    Status.ofNative CUVSLAM_UNSUPPORTED_NUMBER_OF_CAMERAS =
      .UnsupportedNumberOfCameras ∧
    Status.ofNative CUVSLAM_SLAM_IS_NOT_INITIALIZED = .SlamNotInitialized ∧
    Status.ofNative CUVSLAM_NOT_IMPLEMENTED = .NotImplemented ∧
    Status.ofNative CUVSLAM_READING_SLAM_INTERNALS_DISABLED =
      .ReadingSlamInternalsDisabled := by
  refine ⟨?_, by decide, by decide, by decide, by decide, by decide,
    by decide, by decide, by decide, by decide⟩
  intro c h0 h1 h2 h3 h4 h5 h6 h7 h8
  unfold Status.ofNative
  rw [if_neg h0, if_neg h1, if_neg h2, if_neg h3, if_neg h4, if_neg h5,
    if_neg h6, if_neg h7, if_neg h8]

/-- Witness for C4's fallback arm at the unmapped code 1000. -/
theorem status_mapping_total_witness :
    (1000 : Int) ≠ CUVSLAM_SUCCESS ∧ Status.ofNative 1000 = .GenericError :=
  ⟨by decide,
   status_mapping_total.1 1000 (by decide) (by decide) (by decide) (by decide)
     (by decide) (by decide) (by decide) (by decide) (by decide)⟩

/-- C9: converting a `PoseEstimate` into the native pose-estimate
representation and back is the identity; rotation, translation,
timestamp and covariance are copied bit-for-bit with no arithmetic. -/
theorem pose_estimate_roundtrip (p : PoseEstimate) :
    PoseEstimate.ofNative (PoseEstimate.toNative p) = p ∧
    (PoseEstimate.ofNative (PoseEstimate.toNative p)).pose.r = p.pose.r ∧
    (PoseEstimate.ofNative (PoseEstimate.toNative p)).pose.t = p.pose.t ∧
    (PoseEstimate.ofNative (PoseEstimate.toNative p)).timestamp_ns =
      p.timestamp_ns ∧
    (PoseEstimate.ofNative (PoseEstimate.toNative p)).covariance =
      p.covariance :=
  ⟨rfl, rfl, rfl, rfl, rfl⟩

/-- C10: the image-encoding conversion is partial: the two known codes
map to their variants and every other input panics (modelled `none`),
with no fallback variant — in contrast to the total status mapping. -/
theorem image_encoding_partial_map :
    ImageEncoding.ofNative CUVSLAM_ImageEncoding_MONO8 = some .Mono8 ∧
    ImageEncoding.ofNative CUVSLAM_ImageEncoding_RGB8 = some .Rgb8 ∧
    (∀ c : Int, c ≠ CUVSLAM_ImageEncoding_MONO8 →
      c ≠ CUVSLAM_ImageEncoding_RGB8 → ImageEncoding.ofNative c = none) := by
  refine ⟨by decide, by decide, ?_⟩
  intro c h0 h1
  unfold ImageEncoding.ofNative
  rw [if_neg h0, if_neg h1]

/-- Witness for C10's panic arm at the unknown code 7. -/
theorem image_encoding_partial_map_witness :
    (7 : Int) ≠ CUVSLAM_ImageEncoding_MONO8 ∧
    ImageEncoding.ofNative 7 = none :=
  ⟨by decide, image_encoding_partial_map.2.2 7 (by decide) (by decide)⟩

/-- C6: every camera constructor builds, before any native call, a
descriptor whose declared `num_parameters` equals the length of its
parameter vector (pinhole 4, brown5k 9, fisheye4 8), whose native
parameter buffer is exactly that vector, and whose textual
distortion-model name agrees with the count. -/
theorem camera_parameter_counts (w h : Int) (pp : PinholeParameters)
    (bp : Brown5kParameters) (fp : Fisheye4Parameters)
    (pose : CUVSLAM_Pose) :
    ((Camera.new_pinhole w h pp pose).inner.num_parameters =
        ((Camera.new_pinhole w h pp pose).parameters.length : Int) ∧
     (Camera.new_pinhole w h pp pose).parameters.length = 4 ∧
     (Camera.new_pinhole w h pp pose).inner.parameters =
        (Camera.new_pinhole w h pp pose).parameters ∧
     parameterCount (Camera.new_pinhole w h pp pose).inner.distortion_model =
        some (Camera.new_pinhole w h pp pose).parameters.length) ∧
    ((Camera.new_brown5k w h bp pose).inner.num_parameters =
        ((Camera.new_brown5k w h bp pose).parameters.length : Int) ∧
     (Camera.new_brown5k w h bp pose).parameters.length = 9 ∧
     (Camera.new_brown5k w h bp pose).inner.parameters =
        (Camera.new_brown5k w h bp pose).parameters ∧
     parameterCount (Camera.new_brown5k w h bp pose).inner.distortion_model =
        some (Camera.new_brown5k w h bp pose).parameters.length) ∧
    ((Camera.new_fisheye4 w h fp pose).inner.num_parameters =
        ((Camera.new_fisheye4 w h fp pose).parameters.length : Int) ∧
     (Camera.new_fisheye4 w h fp pose).parameters.length = 8 ∧
     (Camera.new_fisheye4 w h fp pose).inner.parameters =
        (Camera.new_fisheye4 w h fp pose).parameters ∧
     parameterCount (Camera.new_fisheye4 w h fp pose).inner.distortion_model =
        some (Camera.new_fisheye4 w h fp pose).parameters.length) :=
  ⟨⟨rfl, rfl, rfl, rfl⟩, ⟨rfl, rfl, rfl, rfl⟩, ⟨rfl, rfl, rfl, rfl⟩⟩

/-- C3: every native-boundary operation checks the returned status
immediately: the result is `Ok` exactly when the status maps to
`Success` (equivalently, is 0), and any other status is returned to the
caller as the mapped typed error — never ignored or coerced to success.
(`save_to_slam_db` first builds a `CString`; on a NUL-free path the
native status is then the sole determinant of the result.) -/
theorem native_status_checked_everywhere
    (s : Int) (nh : Nat) (rig : CameraRig) (cfg : CUVSLAM_Configuration)
    (est : CUVSLAM_PoseEstimate) (tr : Tracker)
    (images : List CUVSLAM_Image) (pp : Option PoseEstimate)
    (pose : CUVSLAM_Pose) (folder : String) :
    Tracker.new s nh rig cfg =
      (if Status.ofNative s = .Success then .ok { handle := nh, _rig := rig }
       else .error (Status.ofNative s)) ∧
    (Tracker.track s est tr images pp).1 =
      (if Status.ofNative s = .Success then .ok (PoseEstimate.ofNative est)
       else .error (Status.ofNative s)) ∧
    Tracker.get_odometry_pose s pose tr =
      (if Status.ofNative s = .Success then .ok pose
       else .error (Status.ofNative s)) ∧
    Tracker.save_to_slam_db s tr folder =
      (if hasNulByte folder then none
       else some (if Status.ofNative s = .Success then .ok ()
                  else .error (Status.ofNative s),
                  [{ handle := tr.handle, folder := folder }])) := by
  refine ⟨?_, ?_, ?_, ?_⟩
  · simp only [Tracker.new, Status.ofNative_eq_success_iff]
  · simp only [Tracker.track_fst, Status.ofNative_eq_success_iff]
  · simp only [Tracker.get_odometry_pose, Status.ofNative_eq_success_iff]
  · simp only [Tracker.save_to_slam_db, Status.ofNative_eq_success_iff]
    split_ifs <;> rfl

/-- C5: the driver's native-event trace contains exactly one destroy
event when creation succeeded and none otherwise: a successfully
created session is destroyed exactly once on every exit path (fatal
break or stream end), a failed creation produces no session object and
triggers no destroy, and no session is destroyed twice or leaked. -/
theorem destroy_exactly_once (createStatus : Int) (nativeHandle : Nat)
    (rig : CameraRig) (config : CUVSLAM_Configuration)
    (inputs : List LoopIterationInput) :
    (runMain createStatus nativeHandle rig config inputs).countP
        NativeEvent.isDestroy =
      if Status.ofNative createStatus = .Success then 1 else 0 := by
  by_cases h : createStatus = 0
  · rw [if_pos ((Status.ofNative_eq_success_iff _).mpr h)]
    unfold runMain Tracker.new
    rw [if_pos h]
    simp [List.countP_cons, List.countP_append, NativeEvent.isDestroy,
      runLoop_countP_destroy]
  · rw [if_neg fun hs => h ((Status.ofNative_eq_success_iff _).mp hs)]
    unfold runMain Tracker.new
    rw [if_neg h]
    simp [List.countP_cons, NativeEvent.isDestroy]

/-- C7: in the tracking loop, an iteration whose track call reports
`TrackingLost` continues into the remaining iterations, an iteration
reporting any other non-success status ends the trace at that
iteration, `TrackingLost` is the only status on which the loop
continues after an error, and no destroy event ever occurs inside the
loop (the session is not destroyed on a recoverable error). -/
theorem tracking_lost_sole_recoverable
    (tr : Tracker) (it : LoopIterationInput)
    (rest : List LoopIterationInput) (f0 f1 : InfraredFrame)
    (tail : List InfraredFrame) (hframes : it.frames = f0 :: f1 :: tail) :
    (Status.ofNative it.nativeStatus = .TrackingLost →
      runLoop tr (it :: rest) =
        (iterationEvents tr it).1 ++ runLoop tr rest) ∧
    (Status.ofNative it.nativeStatus ≠ .Success →
     Status.ofNative it.nativeStatus ≠ .TrackingLost →
      runLoop tr (it :: rest) = (iterationEvents tr it).1) ∧
    (∀ s : Status, handleTrackResult (.error s) = .continueLoop →
      s = .TrackingLost) ∧
    (∀ nh : Nat, NativeEvent.destroyCall nh ∉ runLoop tr (it :: rest)) := by
  have hiter := iterationEvents_of_frames tr it f0 f1 tail hframes
  refine ⟨?_, ?_, handleTrackResult_continue_error, ?_⟩
  · intro hlost
    have hne : it.nativeStatus ≠ 0 := by
      intro h0
      have hsu := (Status.ofNative_eq_success_iff it.nativeStatus).mpr h0
      rw [hsu] at hlost
      exact Status.noConfusion hlost
    have hd : (iterationEvents tr it).2 = .continueLoop := by
      rw [hiter]
      simp only [Tracker.track_fst, if_neg hne, hlost]
      rfl
    rcases hpair : iterationEvents tr it with ⟨evts, d⟩
    rw [hpair] at hd
    have hd' : d = .continueLoop := hd
    subst hd'
    rw [runLoop, hpair]
  · intro hns hnl
    have hne : it.nativeStatus ≠ 0 := by
      intro h0
      exact hns ((Status.ofNative_eq_success_iff it.nativeStatus).mpr h0)
    have hd : (iterationEvents tr it).2 = .breakLoop := by
      rw [hiter]
      simp only [Tracker.track_fst, if_neg hne]
      exact handleTrackResult_error_fatal _ hnl
    rcases hpair : iterationEvents tr it with ⟨evts, d⟩
    rw [hpair] at hd
    have hd' : d = .breakLoop := hd
    subst hd'
    rw [runLoop, hpair]
  · intro nh hmem
    have hfalse := runLoop_no_destroy tr (it :: rest) _ hmem
    simp [NativeEvent.isDestroy] at hfalse

/-- Witness for C7 on a concrete lost-then-stop trace. -/
theorem tracking_lost_sole_recoverable_witness :
    lostInput.frames = demoFrame :: demoFrame :: [] ∧
    Status.ofNative lostInput.nativeStatus = .TrackingLost ∧
    runLoop demoTracker [lostInput] =
      (iterationEvents demoTracker lostInput).1 ++ runLoop demoTracker [] :=
  ⟨rfl, by decide,
   (tracking_lost_sole_recoverable demoTracker lostInput [] demoFrame
      demoFrame [] rfl).1 (by decide)⟩

/-- C8 counterexample: a folder path containing an interior NUL byte
makes `save_to_slam_db` panic (`CString::new(folder).unwrap()`) before
any native call — the call neither returns unit nor surfaces a typed
`Status` error, refuting "for every folder path string". -/
theorem save_panics_on_nul :
    hasNulByte "a\x00b" = true ∧
    Tracker.save_to_slam_db 0 demoTracker "a\x00b" = none :=
  ⟨rfl, rfl⟩

/-- C8 (amended): for every active session and every folder path free
of interior NUL bytes, `save_to_slam_db` returns unit exactly on a
native `Success` status and otherwise surfaces the mapped typed
`Status` error, taking the session immutably (no session state is
touched) and handing the folder string to the native call verbatim; a
path containing a NUL byte panics before any native call. -/
theorem save_no_nul_characterised (s : Int) (tr : Tracker)
    (folder : String) :
    (hasNulByte folder = false →
      Tracker.save_to_slam_db s tr folder =
        some (if Status.ofNative s = .Success then .ok ()
              else .error (Status.ofNative s),
              [{ handle := tr.handle, folder := folder }])) ∧
    (hasNulByte folder = true →
      Tracker.save_to_slam_db s tr folder = none) := by
  constructor
  · intro hno
    simp only [Tracker.save_to_slam_db, hno, Status.ofNative_eq_success_iff,
      Bool.false_eq_true, if_false]
    split_ifs <;> rfl
  · intro hyes
    simp only [Tracker.save_to_slam_db, hyes, if_true]

/-- Witness for the C8 amended theorem on a NUL-free path with a
failing native status. -/
theorem save_no_nul_characterised_witness :
    hasNulByte "maps" = false ∧
    Tracker.save_to_slam_db 4 demoTracker "maps" =
      some (if Status.ofNative 4 = .Success then .ok ()
            else .error (Status.ofNative 4),
            [{ handle := demoTracker.handle, folder := "maps" }]) :=
  ⟨rfl, (save_no_nul_characterised 4 demoTracker "maps").1 rfl⟩

end Cuvslam
